import Mathlib

/-
Verification of the summarizer-bot daily-summary pipeline.

The Python sources (bot/summary.py, bot/database.py, bot/config.py) are
shallowly embedded below.  Python strings are modelled as `List Char`
(sequences of code points), SQLite state as explicit lists/options threaded
through the operations, and exception-raising collaborators (the LLM call,
the storage layer, the delivery client) as explicit `Except`/`Option`/`Bool`
parameters.  Every definition mirrors the corresponding Python function.
-/

set_option maxRecDepth 20000

namespace SummarizerBot

/-- Python strings as lists of characters (code points). -/
abbrev PyStr := List Char

/-- bot/summary.py line 6: `DISCORD_MESSAGE_LIMIT = 2000`. -/
def DISCORD_MESSAGE_LIMIT : Nat := 2000

/-- bot/summary.py line 7: `MAX_RETRY_ATTEMPTS = 2`. -/
def MAX_RETRY_ATTEMPTS : Nat := 2

/-- Python `sep.join(parts)`. -/
def pyJoin (sep : PyStr) : List PyStr → PyStr
  | [] => []
  | [s] => s
  | s :: rest => s ++ sep ++ pyJoin sep rest

/-- Python `str.strip()` (default whitespace stripping at both ends). -/
def pyStrip (s : PyStr) : PyStr :=
  ((s.dropWhile Char.isWhitespace).reverse.dropWhile Char.isWhitespace).reverse

/-- Python `str.rfind(c)` for a single character, returning the index of the
last occurrence (`none` models the `-1` "not found" result). -/
def rfind (l : PyStr) (c : Char) : Option Nat :=
  match l with
  | [] => none
  | x :: xs =>
    match rfind xs c with
    | some i => some (i + 1)
    | none => if x = c then some 0 else none

/-- Python `max(l)` guarded by a non-emptiness check (`none` on `[]`). -/
def pyMax : List Nat → Option Nat
  | [] => none
  | x :: xs =>
    match pyMax xs with
    | none => some x
    | some m => some (max x m)

/-- bot/summary.py lines 18-20: `_validate_message_length`. -/
def validate_message_length (message : PyStr) : Bool :=
  message.length ≤ DISCORD_MESSAGE_LIMIT

/-- The ellipsis marker `"..."` appended by truncation. -/
def ellipsis : PyStr := ['.', '.', '.']

/-- bot/summary.py lines 22-43: `_truncate_message`.  Cuts an over-length
message at the best break point (last period / newline / space found in the
first 2000 characters, provided its index is strictly positive), appending
`"..."`; hard-cuts at `limit - 3` when no such break point exists. -/
def break_points (truncated : PyStr) : List Nat :=
  ([rfind truncated '.', rfind truncated '\n', rfind truncated ' '].filterMap id).filter
    (fun pos => 0 < pos)

def truncate_message (message : PyStr) : PyStr :=
  if validate_message_length message then message
  else
    match pyMax (break_points (message.take DISCORD_MESSAGE_LIMIT)) with
    | some end_pos => message.take end_pos ++ ellipsis
    | none => message.take (DISCORD_MESSAGE_LIMIT - 3) ++ ellipsis

/-- A character at which truncation may break: period, newline or space. -/
def isBreakChar (c : Char) : Bool :=
  decide (c = '.' ∨ c = '\n' ∨ c = ' ')

/-- Indices (starting from `i`) of the characters of `l` satisfying `p`. -/
def idxFilter (p : Char → Bool) : PyStr → Nat → List Nat
  | [], _ => []
  | c :: cs, i => if p c then i :: idxFilter p cs (i + 1) else idxFilter p cs (i + 1)

/-- Modelled from the spec sentence of C3 in its amended form: cut at the
maximum *strictly positive* index of a break character found in the first
2000 characters; if there is none, hard-cut at `2000 - 3`.  Compared against
`truncate_message` (the source definition) by refinement below. -/
def specTruncateAmended (message : PyStr) : PyStr :=
  if message.length ≤ DISCORD_MESSAGE_LIMIT then message
  else
    match pyMax ((idxFilter isBreakChar (message.take DISCORD_MESSAGE_LIMIT) 0).filter
        (fun i => 0 < i)) with
    | some i => message.take i ++ ellipsis
    | none => message.take (DISCORD_MESSAGE_LIMIT - 3) ++ ellipsis

/-- Modelled from the claim C3 as literally stated: cut at the maximum index
of *any* break character found in the first 2000 characters (index 0
included); hard-cut only when no break character exists at all. -/
def specTruncateClaim (message : PyStr) : PyStr :=
  if message.length ≤ DISCORD_MESSAGE_LIMIT then message
  else
    match pyMax (idxFilter isBreakChar (message.take DISCORD_MESSAGE_LIMIT) 0) with
    | some i => message.take i ++ ellipsis
    | none => message.take (DISCORD_MESSAGE_LIMIT - 3) ++ ellipsis

/-! ### Message Store (bot/database.py) -/

/-- A Discord embed as consumed by `_extract_embed_content`: each optional
field is modelled as a possibly-empty string (`[]` plays the role of both
`None` and `""`, which behave identically under Python truthiness). -/
structure Embed where
  title : PyStr
  description : PyStr
  fields : List (PyStr × PyStr)
  url : PyStr
  footer_text : PyStr

/-- A message component (recursively nested), as consumed by
`_extract_from_component`: optional text attributes modelled as
possibly-empty strings. -/
inductive Component where
  | mk (content : PyStr) (children : List Component) (label : PyStr)
       (value : PyStr) (ph : PyStr)

/-- A message attachment (filename and URL). -/
structure Attachment where
  filename : PyStr
  url : PyStr

/-- bot/database.py lines 54-81 (body of the per-embed loop of
`_extract_embed_content`): title, description, fields, url, footer, in
that order, each included only when truthy. -/
def extract_embed_single (e : Embed) : List PyStr :=
  (if e.title ≠ [] then ["**".data ++ e.title ++ "**".data] else []) ++
  (if e.description ≠ [] then [e.description] else []) ++
  ((e.fields.map (fun f =>
    if f.1 ≠ [] ∧ f.2 ≠ [] then ["**".data ++ f.1 ++ "**: ".data ++ f.2]
    else [])).flatten) ++
  (if e.url ≠ [] then ["Source: ".data ++ e.url] else []) ++
  (if e.footer_text ≠ [] ∧ (e.url = [] ∨ e.footer_text ≠ e.url) then
    ["_".data ++ e.footer_text ++ "_".data] else [])

/-- bot/database.py lines 47-81: `_extract_embed_content`. -/
def extract_embed_content (embeds : List Embed) : PyStr :=
  pyJoin ['\n'] ((embeds.map extract_embed_single).flatten)

/-- bot/database.py lines 95-117: `_extract_from_component`, recursively
flattening a component: own content, children (recursively), then label,
value, placeholder fragments. -/
def extract_from_component : Component → List PyStr
  | .mk content children label value ph =>
    (if content ≠ [] then [content] else []) ++
    (children.attach.map (fun x => extract_from_component x.1)).flatten ++
    (if label ≠ [] then ["[".data ++ label ++ "]".data] else []) ++
    (if value ≠ [] then [value] else []) ++
    (if ph ≠ [] then ["(".data ++ ph ++ ")".data] else [])
termination_by c => sizeOf c
decreasing_by
  have := List.sizeOf_lt_of_mem x.2
  simp only [Component.mk.sizeOf_spec]
  omega

/-- bot/database.py lines 83-93: `_extract_component_content`. -/
def extract_component_content (components : List Component) : PyStr :=
  pyJoin "\n\n".data ((components.map extract_from_component).flatten)

/-- bot/database.py lines 119-132: `_extract_attachment_content`. -/
def extract_attachment_content (attachments : List Attachment) : PyStr :=
  pyJoin ['\n'] ((attachments.map (fun a =>
    (if a.filename ≠ [] then ["Attachment: ".data ++ a.filename] else []) ++
    (if a.url ≠ [] then ["[".data ++ a.url ++ "]".data] else []))).flatten)

/-- An inbound Discord message as consumed by `store_message`. -/
structure Message where
  id : PyStr
  author_id : PyStr
  author_name : PyStr
  content : PyStr
  embeds : List Embed
  components : List Component
  attachments : List Attachment
  created_at : Nat
  channel_id : Int

/-- bot/database.py lines 136-161: the combined content assembled by
`store_message` — plain text (when not whitespace-only), embed content,
`"Components: "`-prefixed component content, attachment content, joined by
blank lines, each section omitted when empty. -/
def combined_content (m : Message) : PyStr :=
  pyJoin "\n\n".data
    ((if pyStrip m.content ≠ [] then [m.content] else []) ++
     (if m.embeds.isEmpty = false ∧ extract_embed_content m.embeds ≠ [] then
       [extract_embed_content m.embeds] else []) ++
     (if extract_component_content m.components ≠ [] then
       ["Components: ".data ++ extract_component_content m.components] else []) ++
     (if extract_attachment_content m.attachments ≠ [] then
       [extract_attachment_content m.attachments] else []))

/-- A stored row of the `messages` table. -/
structure Row where
  message_id : PyStr
  author_id : PyStr
  author_name : PyStr
  content : PyStr
  timestamp : Nat
  channel_id : Int
deriving DecidableEq

/-- bot/database.py lines 134-191: `store_message`.  The `fault` flag models
a storage-layer exception (caught by the `except` clause, which returns
`False` and leaves the database unchanged).  `INSERT OR IGNORE` on the
`message_id` primary key is modelled as a no-op when the key is present.
Returns the `rowcount > 0` flag and the new database state. -/
def store_message (fault : Bool) (m : Message) (db : List Row) :
    Bool × List Row :=
  if fault then (false, db)
  else if pyStrip (combined_content m) = [] then (false, db)
  else if db.any (fun r => decide (r.message_id = m.id)) then (false, db)
  else (true, db ++ [⟨m.id, m.author_id, m.author_name, combined_content m,
    m.created_at, m.channel_id⟩])

/-- bot/database.py lines 193-213: `get_messages_since`
(`WHERE timestamp >= ? ORDER BY timestamp ASC`); a storage fault yields
the empty list. -/
def get_messages_since (fault : Bool) (timestamp : Nat) (db : List Row) :
    List Row :=
  if fault then []
  else (db.filter (fun r => decide (timestamp ≤ r.timestamp))).mergeSort
    (fun a b => decide (a.timestamp ≤ b.timestamp))

/-- bot/database.py lines 220-234: `get_last_processed_id`; a storage fault
yields `none`. -/
def get_last_processed_id (fault : Bool) (state : Option PyStr) :
    Option PyStr :=
  if fault then none else state

/-- bot/database.py lines 236-254: `set_last_processed_id`
(`INSERT OR REPLACE` into the single watermark row); a storage fault yields
`false` and leaves the state unchanged. -/
def set_last_processed_id (fault : Bool) (message_id : PyStr)
    (state : Option PyStr) : Bool × Option PyStr :=
  if fault then (false, state) else (true, some message_id)

/-- bot/database.py lines 256-286: `get_message_count_by_user`
(`GROUP BY author_name ORDER BY count DESC`); a storage fault yields the
empty mapping. -/
def get_message_count_by_user (fault : Bool) (since : Option Nat)
    (db : List Row) : List (PyStr × Nat) :=
  if fault then []
  else
    let rows : List Row := match since with
      | some ts => db.filter (fun r => decide (ts ≤ r.timestamp))
      | none => db
    ((rows.map (fun r => r.author_name)).dedup.map (fun a =>
      (a, (rows.filter (fun r => decide (r.author_name = a))).length))).mergeSort
      (fun x y => decide (y.2 ≤ x.2))

/-! ### Summarizer (bot/summary.py) -/

/-- First header line of every generated summary. -/
def summary_header_line1 : PyStr := "**Daily Channel Summary**".data

/-- Second header line (note the trailing newline, as in the source). -/
def summary_header_line2 : PyStr := "*Summary period: Last 24 hours*\n".data

/-- The fixed result when the 24-hour window is empty. -/
def no_messages_summary : PyStr :=
  "No messages to summarize from the last 24 hours.".data

/-- bot/summary.py lines 56-83: `generate_llm_summary`.  `hasClient` models
`self.llm_client` being non-`None`; `msgs` is the 24-hour window;
`callResult` is the outcome of the single external text-generation call
(`.error e` models a raised exception, which the function catches and turns
into the string `"Failed to generate summary: " ++ e`).  Returns the
produced string together with the number of text-generation calls made
(0 or 1). -/
def generate_llm_summary (hasClient : Bool) (msgs : List Row)
    (callResult : Except PyStr PyStr) : PyStr × Nat :=
  if ¬hasClient then
    ("LLM client not available. Using fallback summary.".data, 0)
  else if msgs = [] then (no_messages_summary, 0)
  else
    match callResult with
    | .ok s => (pyJoin ['\n'] [summary_header_line1, summary_header_line2, s], 1)
    | .error e => ("Failed to generate summary: ".data ++ e, 1)

/-- bot/summary.py lines 93-107: the `for attempt in range(MAX_RETRY_ATTEMPTS)`
loop of `generate_daily_summary`.  Returns `(early, last, calls)`: `early`
is the value returned from inside the loop (when some attempt satisfied the
length check), `last` is the final value of the `summary` local variable,
and `calls` counts text-generation calls.  `llm` gives the outcome of the
text-generation call on each attempt. -/
def llm_attempt_loop (msgs : List Row) (llm : Nat → Except PyStr PyStr) :
    Nat → Nat → Option PyStr → Nat → Option PyStr × Option PyStr × Nat
  | _, 0, last, calls => (none, last, calls)
  | attempt, remaining + 1, _, calls =>
    let r := generate_llm_summary true msgs (llm attempt)
    if validate_message_length r.1 then (some r.1, some r.1, calls + r.2)
    else llm_attempt_loop msgs llm (attempt + 1) remaining (some r.1) (calls + r.2)

/-- The outcome of one `generate_daily_summary` run: the returned string,
the number of text-generation calls made, and whether the count-based
fallback branch (bot/summary.py lines 114-137) produced the result. -/
structure DailyOutcome where
  result : PyStr
  llmCalls : Nat
  usedFallback : Bool
deriving DecidableEq

/-- Trailing notice of the placeholder (fallback) summary. -/
def placeholder_notice : PyStr :=
  "\n*This is a placeholder summary. LLM summarization is not currently available.*".data

/-- Header of the per-user activity section of the fallback summary. -/
def activity_header : PyStr := "**Message activity by user:**".data

/-- The bullet prefix of fallback summary lines, byte-for-byte as it occurs
in the source file. -/
def bullet : PyStr := "â€¢ ".data

/-- bot/summary.py lines 120-137: the count-based placeholder summary built
from `get_message_count_by_user`, passed through `_truncate_message`. -/
def placeholder_summary (counts : List (PyStr × Nat)) : PyStr :=
  truncate_message (pyJoin ['\n']
    ([summary_header_line1, summary_header_line2, activity_header] ++
     counts.map (fun p =>
       bullet ++ p.1 ++ ": ".data ++ (Nat.repr p.2).data ++ " messages".data) ++
     [placeholder_notice]))

/-- bot/summary.py lines 114-137: the fallback path of
`generate_daily_summary` (empty window notice, or placeholder summary). -/
def fallback_branch (counts : List (PyStr × Nat)) (calls : Nat) :
    DailyOutcome :=
  if counts = [] then ⟨no_messages_summary, calls, true⟩
  else ⟨placeholder_summary counts, calls, true⟩

/-- bot/summary.py lines 85-137: `generate_daily_summary`.  With a client,
run the retry loop; a value returned inside the loop is final; otherwise,
if the last `summary` is over-length, return its truncation; in the
remaining cases fall through to the fallback path. -/
def generate_daily_summary (hasClient : Bool) (msgs : List Row)
    (llm : Nat → Except PyStr PyStr) (counts : List (PyStr × Nat)) :
    DailyOutcome :=
  if hasClient then
    match llm_attempt_loop msgs llm 0 MAX_RETRY_ATTEMPTS none 0 with
    | (some s, _, calls) => ⟨s, calls, false⟩
    | (none, some s, calls) =>
      if ¬ validate_message_length s then ⟨truncate_message s, calls, false⟩
      else fallback_branch counts calls
    | (none, none, calls) => fallback_branch counts calls
  else fallback_branch counts 0

/-! ### Dispatcher (bot/summary.py lines 139-172) -/

/-- What a destination identifier resolves to: a text channel whose `send`
either succeeds or raises (`sendOk`), or a non-text channel.  An unresolved
identifier is modelled by the resolver returning `none`. -/
inductive Channel where
  | text (send : PyStr → Bool)
  | nontext

/-- bot/summary.py lines 153-172: `_send_to_single_channel`: truncates the
content defensively, resolves the channel, sends only to a text channel
(`send` returns whether the send call succeeded rather than raising);
resolution failure, a non-text channel, or a send-time fault yield `false`. -/
def send_to_single_channel (resolve : Int → Option Channel)
    (channel_id : Int) (summary_content : PyStr) : Bool :=
  match resolve channel_id with
  | some (.text send) => send (truncate_message summary_content)
  | some .nontext => false
  | none => false

/-- Python-dict insertion for the `results` mapping: update in place when
the key exists, append otherwise. -/
def dictInsert (k : Int) (v : Bool) :
    List (Int × Bool) → List (Int × Bool)
  | [] => [(k, v)]
  | (k', v') :: rest =>
    if k' = k then (k, v) :: rest else (k', v') :: dictInsert k v rest

/-- Lookup in the `results` mapping. -/
def dictLookup (k : Int) : List (Int × Bool) → Option Bool
  | [] => none
  | (k', v) :: rest => if k' = k then some v else dictLookup k rest

/-- bot/summary.py lines 139-151: `send_summary_to_subscriber_channels`:
generate the summary once, then deliver that same content to every
subscriber channel, recording one boolean per channel. -/
def send_summary_to_subscriber_channels (resolve : Int → Option Channel)
    (subscriber_channel_ids : List Int) (hasClient : Bool) (msgs : List Row)
    (llm : Nat → Except PyStr PyStr) (counts : List (PyStr × Nat)) :
    List (Int × Bool) :=
  let summary_content := (generate_daily_summary hasClient msgs llm counts).result
  subscriber_channel_ids.foldl
    (fun results cid =>
      dictInsert cid (send_to_single_channel resolve cid summary_content) results)
    []

/-! ### Scheduler (bot/config.py lines 93-118) -/

/-- A timezone-local datetime: a day number and microseconds since local
midnight (fixed offset; the `now.replace(...)` call keeps the date). -/
structure TzDateTime where
  day : Nat
  usec : Nat
deriving DecidableEq

/-- Python datetime `<` restricted to the values compared by
`get_summary_time` (lexicographic on day, then time of day). -/
def tzLtb (a b : TzDateTime) : Bool :=
  decide (a.day < b.day) || (decide (a.day = b.day) && decide (a.usec < b.usec))

/-- bot/config.py lines 93-118: `get_summary_time`: combine the configured
`hour:minute` with today's date (seconds and microseconds zeroed); if that
instant is strictly before now (`summary_time < now`), add one day. -/
def get_summary_time (hour minute : Nat) (now : TzDateTime) : TzDateTime :=
  if tzLtb ⟨now.day, ((hour * 60 + minute) * 60) * 1000000⟩ now then
    ⟨now.day + 1, ((hour * 60 + minute) * 60) * 1000000⟩
  else ⟨now.day, ((hour * 60 + minute) * 60) * 1000000⟩

/-! ### Concrete inputs used by the claim instances -/

/-- A 2500-character message whose only break character within the first
2000 characters is a period at index 1800 (claim C3's scenario). -/
def scenarioC3 : PyStr := List.replicate 1800 'b' ++ ('.' :: List.replicate 699 'b')

/-- A 2500-character message whose only break character is a space at
index 0 (distinguishing the code's `pos > 0` filter from the claim). -/
def counterexC3 : PyStr := ' ' :: List.replicate 2499 'a'

/-- A text-generation output that, once the summary header is prepended,
is 2500 characters long with a space at index 1999 and no break character
after it within the first 2000 characters. -/
def llmTextC1 : PyStr := List.replicate 1940 'a' ++ (' ' :: List.replicate 500 'a')

/-- A concrete stored row (a non-empty 24-hour window). -/
def rowA : Row := ⟨"1".data, "u1".data, "alice".data, "hi".data, 100, 5⟩

/-- The summary string produced by `generate_llm_summary` on `llmTextC1`. -/
def llmSummaryC1 : PyStr :=
  pyJoin ['\n'] [summary_header_line1, summary_header_line2, llmTextC1]

/-- The header material `generate_llm_summary` places before the generated
text (59 characters). -/
def headerPrefix : PyStr :=
  summary_header_line1 ++ ['\n'] ++ summary_header_line2 ++ ['\n']

/-- A concrete inbound message with plain text content and no embeds,
components or attachments. -/
def msgA : Message :=
  ⟨"10".data, "u1".data, "alice".data, "hi there".data, [], [], [], 100, 5⟩

/-- A concrete inbound message with empty text, no embeds, no components
and no attachments. -/
def emptyMsg : Message :=
  ⟨"11".data, "u2".data, "bob".data, [], [], [], [], 101, 5⟩

/-- A concrete resolver: destination 2 fails to resolve, all others are
text channels whose send succeeds. -/
def resolveW : Int → Option Channel :=
  fun cid => if cid = 2 then none else some (Channel.text (fun _ => true))

/-! ### Basic lemmas about `pyMax`, `idxFilter` and `rfind` -/

theorem pyMax_eq_none_iff (l : List Nat) : pyMax l = none ↔ l = [] := by
  cases l with
  | nil => simp [pyMax]
  | cons x xs =>
    simp only [pyMax]
    cases pyMax xs <;> simp

theorem pyMax_eq_some_iff (l : List Nat) (m : Nat) :
    pyMax l = some m ↔ m ∈ l ∧ ∀ x ∈ l, x ≤ m := by
  induction l generalizing m with
  | nil => simp [pyMax]
  | cons x xs ih =>
    simp only [pyMax]
    cases h : pyMax xs with
    | none =>
      have hnil : xs = [] := (pyMax_eq_none_iff xs).mp h
      subst hnil
      constructor
      · rintro ⟨rfl⟩; simp
      · rintro ⟨hm, hb⟩
        simp only [List.mem_singleton] at hm
        simp [hm]
    | some k =>
      have hk := (ih k).mp h
      constructor
      · rintro ⟨rfl⟩
        rcases Nat.le_total x k with hxk | hkx
        · refine ⟨List.mem_cons_of_mem _ (by simpa [Nat.max_eq_right hxk] using hk.1), ?_⟩
          intro y hy
          rcases List.mem_cons.mp hy with rfl | hy
          · exact Nat.le_max_left _ _
          · exact le_trans (hk.2 y hy) (Nat.le_max_right _ _)
        · refine ⟨by simp [Nat.max_eq_left hkx], ?_⟩
          intro y hy
          rcases List.mem_cons.mp hy with rfl | hy
          · exact Nat.le_max_left _ _
          · exact le_trans (hk.2 y hy) (Nat.le_max_right _ _)
      · rintro ⟨hm, hb⟩
        have hxm : x ≤ m := hb x (List.mem_cons_self _ _)
        have hkm : k ≤ m := le_trans (le_refl k) (by
          rcases hk.1 with h1
          exact hb k (List.mem_cons_of_mem _ h1))
        have hmk : m ≤ max x k := by
          rcases List.mem_cons.mp hm with rfl | hmem
          · exact Nat.le_max_left _ _
          · exact le_trans (hk.2 m hmem) (Nat.le_max_right _ _)
        have : max x k ≤ m := Nat.max_le.mpr ⟨hxm, hkm⟩
        exact congrArg some (Nat.le_antisymm this hmk).symm ▸ rfl

theorem idxFilter_shift (p : Char → Bool) (l : PyStr) (i : Nat) :
    idxFilter p l (i + 1) = (idxFilter p l i).map (· + 1) := by
  induction l generalizing i with
  | nil => simp [idxFilter]
  | cons c cs ih =>
    simp only [idxFilter]
    by_cases hc : p c <;> simp [hc, ih]

theorem mem_idxFilter_zero {p : Char → Bool} {l : PyStr} {j : Nat} :
    j ∈ idxFilter p l 0 ↔ j < l.length ∧ p (l.getD j 'a') = true := by
  induction l generalizing j with
  | nil => simp [idxFilter]
  | cons c cs ih =>
    rw [idxFilter]
    cases j with
    | zero =>
      by_cases hc : p c
      · simp [hc, idxFilter_shift]
      · simp [hc, idxFilter_shift]
    | succ j' =>
      by_cases hc : p c
      · simp [hc, idxFilter_shift, ih, Nat.succ_lt_succ_iff]
      · simp [hc, idxFilter_shift, ih, Nat.succ_lt_succ_iff]

theorem pyMax_map_succ (l : List Nat) :
    pyMax (l.map (· + 1)) = (pyMax l).map (· + 1) := by
  induction l with
  | nil => simp [pyMax]
  | cons x xs ih =>
    simp only [List.map_cons, pyMax, ih]
    cases pyMax xs with
    | none => simp
    | some v =>
      simp only [Option.map_some]
      have : max (x + 1) (v + 1) = max x v + 1 := by omega
      simp [this]

theorem rfind_eq_pyMax_idxFilter (l : PyStr) (c : Char) :
    rfind l c = pyMax (idxFilter (fun x => x == c) l 0) := by
  induction l with
  | nil => simp [rfind, idxFilter, pyMax]
  | cons x xs ih =>
    rw [rfind, idxFilter, idxFilter_shift, ih]
    by_cases hx : x = c
    · simp only [hx, beq_self_eq_true, if_true, pyMax, pyMax_map_succ]
      cases pyMax (idxFilter (fun y => y == c) xs 0) <;> simp
    · simp only [beq_iff_eq, hx, if_false, pyMax_map_succ]
      cases pyMax (idxFilter (fun y => y == c) xs 0) <;> simp [hx]

theorem rfind_append (l₁ l₂ : PyStr) (c : Char) :
    rfind (l₁ ++ l₂) c =
      match rfind l₂ c with
      | some i => some (l₁.length + i)
      | none => rfind l₁ c := by
  induction l₁ with
  | nil =>
    simp only [List.nil_append, List.length_nil]
    cases h : rfind l₂ c <;> simp [h, rfind]
  | cons x xs ih =>
    rw [List.cons_append, rfind, ih]
    cases h : rfind l₂ c with
    | some i =>
      simp only [List.length_cons]
      have : xs.length + i + 1 = xs.length + 1 + i := by omega
      simp [this]
    | none => rfl

theorem rfind_replicate_of_ne {c a : Char} (h : c ≠ a) (n : Nat) :
    rfind (List.replicate n a) c = none := by
  induction n with
  | zero => simp [rfind]
  | succ k ih => simp [List.replicate_succ, rfind, ih, h.symm, (Ne.symm h)]

theorem idxFilter_replicate_of_not {p : Char → Bool} {a : Char} (h : ¬ p a)
    (n i : Nat) : idxFilter p (List.replicate n a) i = [] := by
  induction n generalizing i with
  | zero => simp [idxFilter]
  | succ k ih => simp [List.replicate_succ, idxFilter, h, ih]

/-! ### The break-point computation of `truncate_message` agrees with the
maximum positive break index of the truncated prefix -/

theorem rfind_some_mem_breakIdx {t : PyStr} {c : Char} {x : Nat}
    (hc : isBreakChar c = true) (h : rfind t c = some x) :
    x ∈ idxFilter isBreakChar t 0 := by
  rw [rfind_eq_pyMax_idxFilter] at h
  have h1 := ((pyMax_eq_some_iff _ _).mp h).1
  rcases mem_idxFilter_zero.mp h1 with ⟨hlen, hp⟩
  have hgd : t.getD x 'a' = c := by simpa using hp
  exact mem_idxFilter_zero.mpr ⟨hlen, by rw [hgd]; exact hc⟩

theorem breakIdx_le_rfind {t : PyStr} {m : Nat}
    (hm : m ∈ idxFilter isBreakChar t 0) :
    ∃ c, isBreakChar c = true ∧ ∃ m', rfind t c = some m' ∧ m ≤ m' ∧
      m' ∈ idxFilter isBreakChar t 0 := by
  rcases mem_idxFilter_zero.mp hm with ⟨hlen, hp⟩
  refine ⟨t.getD m 'a', hp, ?_⟩
  have hmem : m ∈ idxFilter (fun x => x == t.getD m 'a') t 0 :=
    mem_idxFilter_zero.mpr ⟨hlen, by simp⟩
  cases hpm : pyMax (idxFilter (fun x => x == t.getD m 'a') t 0) with
  | none =>
    rw [pyMax_eq_none_iff] at hpm
    rw [hpm] at hmem
    cases hmem
  | some m' =>
    have hh := (pyMax_eq_some_iff _ _).mp hpm
    refine ⟨m', by rw [rfind_eq_pyMax_idxFilter]; exact hpm, hh.2 m hmem, ?_⟩
    rcases mem_idxFilter_zero.mp hh.1 with ⟨hl, hp'⟩
    have hgd : t.getD m' 'a' = t.getD m 'a' := by simpa using hp'
    exact mem_idxFilter_zero.mpr ⟨hl, by rw [hgd]; exact hp⟩

theorem break_points_pyMax_eq (t : PyStr) :
    pyMax (break_points t) =
    pyMax ((idxFilter isBreakChar t 0).filter (fun i => 0 < i)) := by
  have hmemL : ∀ x : Nat,
      x ∈ break_points t ↔
      ((rfind t '.' = some x ∨ rfind t '\n' = some x ∨ rfind t ' ' = some x) ∧
        0 < x) := by
    intro x
    unfold break_points
    constructor
    · intro hx
      rcases List.mem_filter.mp hx with ⟨hmem, hpos⟩
      rcases List.mem_filterMap.mp hmem with ⟨a, ha, hid⟩
      simp only [id_eq] at hid
      subst hid
      simp only [List.mem_cons, List.not_mem_nil, or_false] at ha
      exact ⟨ha.imp Eq.symm (fun h => h.imp Eq.symm Eq.symm), by simpa using hpos⟩
    · rintro ⟨h3, hpos⟩
      apply List.mem_filter.mpr
      refine ⟨List.mem_filterMap.mpr ⟨some x, ?_, rfl⟩, by simpa using hpos⟩
      rcases h3 with h | h | h
      · exact List.mem_cons.mpr (Or.inl h.symm)
      · exact List.mem_cons.mpr (Or.inr (List.mem_cons.mpr (Or.inl h.symm)))
      · exact List.mem_cons.mpr (Or.inr (List.mem_cons.mpr (Or.inr
          (List.mem_cons.mpr (Or.inl h.symm)))))
  have hmemR : ∀ x : Nat,
      x ∈ (idxFilter isBreakChar t 0).filter (fun i => 0 < i) ↔
      (x ∈ idxFilter isBreakChar t 0 ∧ 0 < x) := by
    intro x; simp [List.mem_filter]
  have hsub : ∀ x : Nat,
      x ∈ break_points t →
      x ∈ (idxFilter isBreakChar t 0).filter (fun i => 0 < i) := by
    intro x hx
    rcases (hmemL x).mp hx with ⟨h3, hpos⟩
    rcases h3 with h | h | h
    · exact (hmemR x).mpr ⟨rfind_some_mem_breakIdx (by decide) h, hpos⟩
    · exact (hmemR x).mpr ⟨rfind_some_mem_breakIdx (by decide) h, hpos⟩
    · exact (hmemR x).mpr ⟨rfind_some_mem_breakIdx (by decide) h, hpos⟩
  cases hR : pyMax ((idxFilter isBreakChar t 0).filter (fun i => 0 < i)) with
  | none =>
    rw [pyMax_eq_none_iff] at hR
    rw [pyMax_eq_none_iff]
    apply List.eq_nil_iff_forall_not_mem.mpr
    intro x hx
    have := hsub x hx
    rw [hR] at this
    cases this
  | some m =>
    apply (pyMax_eq_some_iff _ _).mpr
    have hm := (pyMax_eq_some_iff _ _).mp hR
    rcases (hmemR m).mp hm.1 with ⟨hmB, hmpos⟩
    rcases breakIdx_le_rfind hmB with ⟨c, hc, m', hrf, hmm', hm'B⟩
    have hm'R : m' ∈ (idxFilter isBreakChar t 0).filter (fun i => 0 < i) :=
      (hmemR m').mpr ⟨hm'B, lt_of_lt_of_le hmpos hmm'⟩
    have hm'eq : m' = m := le_antisymm (hm.2 m' hm'R) hmm'
    subst hm'eq
    constructor
    · apply (hmemL m').mpr
      refine ⟨?_, hmpos⟩
      have hcc : c = '.' ∨ c = '\n' ∨ c = ' ' := by
        have := of_decide_eq_true hc
        exact this
      rcases hcc with rfl | rfl | rfl
      · exact Or.inl hrf
      · exact Or.inr (Or.inl hrf)
      · exact Or.inr (Or.inr hrf)
    · intro x hx
      exact hm.2 x (hsub x hx)

/-- The source truncation agrees exactly with the amended spec description
of truncation (maximum strictly-positive break index, else hard cut). -/
theorem truncate_message_eq_specAmended (message : PyStr) :
    truncate_message message = specTruncateAmended message := by
  unfold truncate_message specTruncateAmended validate_message_length
  by_cases h : message.length ≤ DISCORD_MESSAGE_LIMIT
  · simp [h]
  · rw [if_neg (by simpa using h), if_neg h, break_points_pyMax_eq]

/-! ### Evaluation of the truncation on the C3 scenario input -/

theorem scenarioC3_take2000 :
    scenarioC3.take 2000 = List.replicate 1800 'b' ++ ('.' :: List.replicate 199 'b') := by
  unfold scenarioC3
  rw [List.take_append_eq_append_take, List.take_replicate, List.length_replicate]
  norm_num

theorem rfind_scenario_period :
    rfind (List.replicate 1800 'b' ++ ('.' :: List.replicate 199 'b')) '.' = some 1800 := by
  have h0 : rfind ('.' :: List.replicate 199 'b') '.' = some 0 := by
    rw [rfind, rfind_replicate_of_ne (show ('.' : Char) ≠ 'b' by decide)]
    simp
  rw [rfind_append, h0]
  simp

theorem rfind_scenario_newline :
    rfind (List.replicate 1800 'b' ++ ('.' :: List.replicate 199 'b')) '\n' = none := by
  have h0 : rfind ('.' :: List.replicate 199 'b') '\n' = none := by
    rw [rfind, rfind_replicate_of_ne (show ('\n' : Char) ≠ 'b' by decide)]
    simp
  rw [rfind_append, h0]
  exact rfind_replicate_of_ne (by decide) 1800

theorem rfind_scenario_space :
    rfind (List.replicate 1800 'b' ++ ('.' :: List.replicate 199 'b')) ' ' = none := by
  have h0 : rfind ('.' :: List.replicate 199 'b') ' ' = none := by
    rw [rfind, rfind_replicate_of_ne (show (' ' : Char) ≠ 'b' by decide)]
    simp
  rw [rfind_append, h0]
  exact rfind_replicate_of_ne (by decide) 1800

theorem break_points_scenarioC3 :
    break_points (scenarioC3.take 2000) = [1800] := by
  rw [scenarioC3_take2000]
  unfold break_points
  rw [rfind_scenario_period, rfind_scenario_newline, rfind_scenario_space]
  simp

theorem scenarioC3_length : scenarioC3.length = 2500 := by
  simp [scenarioC3]

theorem truncate_scenarioC3 :
    truncate_message scenarioC3 = List.replicate 1800 'b' ++ ellipsis := by
  unfold truncate_message
  rw [if_neg (by simp [validate_message_length, scenarioC3_length, DISCORD_MESSAGE_LIMIT])]
  rw [show DISCORD_MESSAGE_LIMIT = 2000 from rfl, break_points_scenarioC3]
  rw [show pyMax [1800] = some 1800 from rfl]
  unfold scenarioC3
  rw [List.take_append_eq_append_take, List.take_replicate, List.length_replicate]
  norm_num

/-! ### Evaluation of the truncation on the C3 edge input (break at index 0) -/

theorem counterexC3_take2000 :
    counterexC3.take 2000 = ' ' :: List.replicate 1999 'a' := by
  unfold counterexC3
  rw [show (2000 : Nat) = 1999 + 1 from rfl, List.take_succ_cons, List.take_replicate]
  norm_num

theorem break_points_counterexC3 :
    break_points (counterexC3.take 2000) = [] := by
  rw [counterexC3_take2000]
  unfold break_points
  rw [show rfind (' ' :: List.replicate 1999 'a') '.' = none by
      rw [rfind, rfind_replicate_of_ne (show ('.' : Char) ≠ 'a' by decide)]; simp]
  rw [show rfind (' ' :: List.replicate 1999 'a') '\n' = none by
      rw [rfind, rfind_replicate_of_ne (show ('\n' : Char) ≠ 'a' by decide)]; simp]
  rw [show rfind (' ' :: List.replicate 1999 'a') ' ' = some 0 by
      rw [rfind, rfind_replicate_of_ne (show (' ' : Char) ≠ 'a' by decide)]; simp]
  simp

theorem counterexC3_length : counterexC3.length = 2500 := by
  simp [counterexC3]

theorem truncate_counterexC3 :
    truncate_message counterexC3 = (' ' :: List.replicate 1996 'a') ++ ellipsis := by
  unfold truncate_message
  rw [if_neg (by simp [validate_message_length, counterexC3_length, DISCORD_MESSAGE_LIMIT])]
  rw [show DISCORD_MESSAGE_LIMIT = 2000 from rfl, break_points_counterexC3]
  rw [show pyMax [] = none from rfl]
  unfold counterexC3
  rw [show (2000 : Nat) - 3 = 1996 + 1 from rfl, List.take_succ_cons,
    List.take_replicate]
  norm_num

theorem specClaim_counterexC3 : specTruncateClaim counterexC3 = ellipsis := by
  unfold specTruncateClaim
  rw [if_neg (by simp [counterexC3_length, DISCORD_MESSAGE_LIMIT])]
  rw [show DISCORD_MESSAGE_LIMIT = 2000 from rfl, counterexC3_take2000]
  rw [show idxFilter isBreakChar (' ' :: List.replicate 1999 'a') 0 = [0] by
    rw [idxFilter]
    rw [idxFilter_replicate_of_not (by decide)]
    simp [isBreakChar]]
  rfl

/-- C3 (counterexample): the claim as stated fails on the 2500-character
input whose only break character is a space at index 0.  The claim
predicts a cut at that maximum break index (yielding just the ellipsis),
but `_truncate_message` only accepts strictly positive break indices and
hard-cuts at `2000 - 3` instead. -/
theorem c3_claim_counterexample :
    truncate_message counterexC3 = (' ' :: List.replicate 1996 'a') ++ ellipsis ∧
    specTruncateClaim counterexC3 = ellipsis ∧
    truncate_message counterexC3 ≠ specTruncateClaim counterexC3 := by
  refine ⟨truncate_counterexC3, specClaim_counterexC3, ?_⟩
  rw [truncate_counterexC3, specClaim_counterexC3]
  intro h
  have := congrArg List.length h
  simp [ellipsis] at this

/-! ### Characterization of the retry loop of `generate_daily_summary` -/

theorem llm_attempt_loop_two (msgs : List Row) (llm : Nat → Except PyStr PyStr) :
    llm_attempt_loop msgs llm 0 2 none 0 =
      (if validate_message_length (generate_llm_summary true msgs (llm 0)).1 then
        (some (generate_llm_summary true msgs (llm 0)).1,
         some (generate_llm_summary true msgs (llm 0)).1,
         (generate_llm_summary true msgs (llm 0)).2)
      else if validate_message_length (generate_llm_summary true msgs (llm 1)).1 then
        (some (generate_llm_summary true msgs (llm 1)).1,
         some (generate_llm_summary true msgs (llm 1)).1,
         (generate_llm_summary true msgs (llm 0)).2 +
           (generate_llm_summary true msgs (llm 1)).2)
      else
        (none, some (generate_llm_summary true msgs (llm 1)).1,
         (generate_llm_summary true msgs (llm 0)).2 +
           (generate_llm_summary true msgs (llm 1)).2)) := by
  by_cases h0 : validate_message_length (generate_llm_summary true msgs (llm 0)).1
  · simp [llm_attempt_loop, h0]
  · by_cases h1 : validate_message_length (generate_llm_summary true msgs (llm 1)).1
    · simp [llm_attempt_loop, h0, h1]
    · simp [llm_attempt_loop, h0, h1]

/-- With an initialized client, `generate_daily_summary` returns the first
attempt when it fits, otherwise the second attempt when it fits, otherwise
the truncation of the second attempt — and never the fallback branch. -/
theorem generate_daily_summary_client (msgs : List Row)
    (llm : Nat → Except PyStr PyStr) (counts : List (PyStr × Nat)) :
    generate_daily_summary true msgs llm counts =
      (if validate_message_length (generate_llm_summary true msgs (llm 0)).1 then
        ⟨(generate_llm_summary true msgs (llm 0)).1,
         (generate_llm_summary true msgs (llm 0)).2, false⟩
      else if validate_message_length (generate_llm_summary true msgs (llm 1)).1 then
        ⟨(generate_llm_summary true msgs (llm 1)).1,
         (generate_llm_summary true msgs (llm 0)).2 +
           (generate_llm_summary true msgs (llm 1)).2, false⟩
      else
        ⟨truncate_message (generate_llm_summary true msgs (llm 1)).1,
         (generate_llm_summary true msgs (llm 0)).2 +
           (generate_llm_summary true msgs (llm 1)).2, false⟩) := by
  unfold generate_daily_summary
  rw [show MAX_RETRY_ATTEMPTS = 2 from rfl, llm_attempt_loop_two]
  by_cases h0 : validate_message_length (generate_llm_summary true msgs (llm 0)).1
  · simp [h0]
  · by_cases h1 : validate_message_length (generate_llm_summary true msgs (llm 1)).1
    · simp [h0, h1]
    · simp [h0, h1]

theorem generate_llm_summary_calls_le_one (hasClient : Bool) (msgs : List Row)
    (cr : Except PyStr PyStr) : (generate_llm_summary hasClient msgs cr).2 ≤ 1 := by
  unfold generate_llm_summary
  by_cases hc : hasClient <;> by_cases hm : msgs = [] <;> cases cr <;> simp [hc, hm]

theorem generate_llm_summary_calls_one (msgs : List Row)
    (cr : Except PyStr PyStr) (h : msgs ≠ []) :
    (generate_llm_summary true msgs cr).2 = 1 := by
  unfold generate_llm_summary
  cases cr <;> simp [h]

/-! ### Evaluation of the summary pipeline on the C1 exhibit input -/

theorem llmSummaryC1_eq : llmSummaryC1 = headerPrefix ++ llmTextC1 := by
  simp [llmSummaryC1, headerPrefix, pyJoin, List.append_assoc]

theorem headerPrefix_length : headerPrefix.length = 59 := by decide

theorem llmTextC1_length : llmTextC1.length = 2441 := by
  simp [llmTextC1]

theorem llmSummaryC1_length : llmSummaryC1.length = 2500 := by
  rw [llmSummaryC1_eq]
  simp [headerPrefix_length, llmTextC1_length]

theorem validate_llmSummaryC1 : validate_message_length llmSummaryC1 = false := by
  simp [validate_message_length, llmSummaryC1_length, DISCORD_MESSAGE_LIMIT]

theorem gls_llmTextC1 :
    generate_llm_summary true [rowA] (Except.ok llmTextC1) = (llmSummaryC1, 1) := by
  simp [generate_llm_summary, llmSummaryC1]

theorem llmSummaryC1_take2000 :
    llmSummaryC1.take 2000 = headerPrefix ++ (List.replicate 1940 'a' ++ [' ']) := by
  rw [llmSummaryC1_eq, List.take_append_eq_append_take,
    List.take_of_length_le (by rw [headerPrefix_length]; norm_num),
    headerPrefix_length]
  unfold llmTextC1
  rw [show (2000 : Nat) - 59 = 1941 from rfl, List.take_append_eq_append_take,
    List.take_replicate, List.length_replicate]
  norm_num

theorem break_points_llmSummaryC1 :
    break_points (llmSummaryC1.take 2000) = [58, 1999] := by
  rw [llmSummaryC1_take2000]
  unfold break_points
  rw [show rfind (headerPrefix ++ (List.replicate 1940 'a' ++ [' '])) '.' = none by
    rw [rfind_append]
    rw [show rfind (List.replicate 1940 'a' ++ [' ']) '.' = none by
      rw [rfind_append]
      rw [show rfind [' '] '.' = none by decide,
        rfind_replicate_of_ne (show ('.' : Char) ≠ 'a' by decide)]]
    decide]
  rw [show rfind (headerPrefix ++ (List.replicate 1940 'a' ++ [' '])) '\n' = some 58 by
    rw [rfind_append]
    rw [show rfind (List.replicate 1940 'a' ++ [' ']) '\n' = none by
      rw [rfind_append]
      rw [show rfind [' '] '\n' = none by decide,
        rfind_replicate_of_ne (show ('\n' : Char) ≠ 'a' by decide)]]
    decide]
  rw [show rfind (headerPrefix ++ (List.replicate 1940 'a' ++ [' '])) ' ' = some 1999 by
    rw [rfind_append]
    rw [show rfind (List.replicate 1940 'a' ++ [' ']) ' ' = some 1940 by
      rw [rfind_append]
      rw [show rfind [' '] ' ' = some 0 by decide]
      simp]
    rw [headerPrefix_length]]
  simp

theorem truncate_llmSummaryC1 :
    truncate_message llmSummaryC1 = llmSummaryC1.take 1999 ++ ellipsis := by
  unfold truncate_message
  rw [if_neg (by simp [validate_llmSummaryC1])]
  rw [show DISCORD_MESSAGE_LIMIT = 2000 from rfl, break_points_llmSummaryC1]
  rw [show pyMax [58, 1999] = some 1999 by decide]

/-- C1 (code bug exhibit): when the text-generation output is `llmTextC1`
(so that the assembled summary is 2500 characters with its last break
point, a space, at index 1999), `generate_daily_summary` returns the
truncation of that summary, which is 2002 characters long — strictly more
than the 2000-character limit the claim asserts for every returned
string. -/
theorem c1_length_contract_violation :
    (generate_daily_summary true [rowA] (fun _ => Except.ok llmTextC1) []).result.length
      = 2002 ∧
    DISCORD_MESSAGE_LIMIT <
      (generate_daily_summary true [rowA] (fun _ => Except.ok llmTextC1) []).result.length := by
  have hres :
      (generate_daily_summary true [rowA] (fun _ => Except.ok llmTextC1) []).result =
        llmSummaryC1.take 1999 ++ ellipsis := by
    rw [generate_daily_summary_client]
    simp only [gls_llmTextC1, validate_llmSummaryC1]
    simp [truncate_llmSummaryC1]
  rw [hres]
  constructor
  · simp [List.length_take, llmSummaryC1_length, ellipsis]
  · simp [List.length_take, llmSummaryC1_length, ellipsis, DISCORD_MESSAGE_LIMIT]

/-- C2 (counterexample): with a non-empty window and non-empty per-author
counts, a text-generation fault on attempt 1 makes `generate_daily_summary`
return the error string produced inside `generate_llm_summary` — an error
message, not the count-based fallback summary the claim promises (the
fallback branch is not taken). -/
theorem c2_claim_counterexample :
    (generate_daily_summary true [rowA]
        (fun _ => Except.error ("timeout".data)) [("alice".data, 3)]).usedFallback
      = false ∧
    (generate_daily_summary true [rowA]
        (fun _ => Except.error ("timeout".data)) [("alice".data, 3)]).result =
      "Failed to generate summary: timeout".data ∧
    (generate_daily_summary true [rowA]
        (fun _ => Except.error ("timeout".data)) [("alice".data, 3)]).result ≠
      (fallback_branch [("alice".data, 3)] 0).result := by
  decide

/-- C2 (amended): if the text-generation call raises a fault on the first
attempt, `generate_daily_summary` makes no second text-generation call
(exactly one call happens), but it returns the short error string
`"Failed to generate summary: <fault>"` produced inside
`generate_llm_summary` — not the count-based fallback summary — whenever
that error string is within the length limit. -/
theorem c2_fault_short_circuit (msgs : List Row)
    (llm : Nat → Except PyStr PyStr) (counts : List (PyStr × Nat)) (e : PyStr)
    (hmsgs : msgs ≠ []) (hfault : llm 0 = Except.error e)
    (hlen : ("Failed to generate summary: ".data ++ e).length ≤ 2000) :
    generate_daily_summary true msgs llm counts =
      ⟨"Failed to generate summary: ".data ++ e, 1, false⟩ := by
  have hr0 : generate_llm_summary true msgs (llm 0) =
      ("Failed to generate summary: ".data ++ e, 1) := by
    rw [hfault]; simp [generate_llm_summary, hmsgs]
  have hval : validate_message_length (generate_llm_summary true msgs (llm 0)).1 = true := by
    rw [hr0]
    dsimp only
    simp only [validate_message_length, DISCORD_MESSAGE_LIMIT, decide_eq_true_eq]
    exact hlen
  rw [generate_daily_summary_client, hval]
  simp [hr0]

/-- C2 (witness): the amended statement at a concrete input. -/
theorem c2_fault_short_circuit_witness :
    ([rowA] : List Row) ≠ [] ∧
    generate_daily_summary true [rowA]
        (fun _ => Except.error ("timeout".data)) [] =
      ⟨"Failed to generate summary: ".data ++ "timeout".data, 1, false⟩ :=
  ⟨by simp,
   c2_fault_short_circuit [rowA] (fun _ => Except.error ("timeout".data)) []
     ("timeout".data) (by simp) rfl (by decide)⟩

/-- C6: `generate_daily_summary` performs at most 2 text-generation calls
on any input; and when the text-generation result is over-length on both
attempts (with a non-empty window), it performs exactly 2 calls and returns
the truncation of the second attempt's result rather than calling again. -/
theorem c6_retry_bound :
    (∀ (hasClient : Bool) (msgs : List Row) (llm : Nat → Except PyStr PyStr)
       (counts : List (PyStr × Nat)),
      (generate_daily_summary hasClient msgs llm counts).llmCalls ≤ 2) ∧
    (∀ (msgs : List Row) (llm : Nat → Except PyStr PyStr)
       (counts : List (PyStr × Nat)),
      msgs ≠ [] →
      validate_message_length (generate_llm_summary true msgs (llm 0)).1 = false →
      validate_message_length (generate_llm_summary true msgs (llm 1)).1 = false →
      generate_daily_summary true msgs llm counts =
        ⟨truncate_message (generate_llm_summary true msgs (llm 1)).1, 2, false⟩) := by
  constructor
  · intro hasClient msgs llm counts
    cases hasClient with
    | false =>
      unfold generate_daily_summary fallback_branch
      by_cases hc : counts = [] <;> simp [hc]
    | true =>
      rw [generate_daily_summary_client]
      have h0 := generate_llm_summary_calls_le_one true msgs (llm 0)
      have h1 := generate_llm_summary_calls_le_one true msgs (llm 1)
      by_cases v0 : validate_message_length (generate_llm_summary true msgs (llm 0)).1
      · simp [v0]; omega
      · by_cases v1 : validate_message_length (generate_llm_summary true msgs (llm 1)).1
        · simp [v0, v1]; omega
        · simp [v0, v1]; omega
  · intro msgs llm counts hmsgs h0 h1
    rw [generate_daily_summary_client]
    simp [h0, h1, generate_llm_summary_calls_one _ _ hmsgs]

/-- C6 (witness): the over-length scenario at a concrete input. -/
theorem c6_retry_bound_witness :
    validate_message_length (generate_llm_summary true [rowA]
        ((fun _ => Except.ok llmTextC1) 0)).1 = false ∧
    generate_daily_summary true [rowA] (fun _ => Except.ok llmTextC1) [] =
      ⟨truncate_message (generate_llm_summary true [rowA]
        ((fun _ => Except.ok llmTextC1) 1)).1, 2, false⟩ :=
  ⟨by simp [gls_llmTextC1, validate_llmSummaryC1],
   c6_retry_bound.2 [rowA] (fun _ => Except.ok llmTextC1) [] (by simp)
     (by simp [gls_llmTextC1, validate_llmSummaryC1])
     (by simp [gls_llmTextC1, validate_llmSummaryC1])⟩

/-- Helper characterization of the client path of `generate_daily_summary`:
the count-based fallback branch is never taken, the result is the first
attempt's string, the second attempt's string, or the truncation of the
second attempt's string, and every string produced by
`generate_llm_summary` is the fixed no-messages notice, the
header-formatted text-generation summary, or the short error string. -/
theorem c10_no_fallback_with_client :
    ∀ (msgs : List Row) (llm : Nat → Except PyStr PyStr)
      (counts : List (PyStr × Nat)),
      (generate_daily_summary true msgs llm counts).usedFallback = false ∧
      ((generate_daily_summary true msgs llm counts).result =
          (generate_llm_summary true msgs (llm 0)).1 ∨
       (generate_daily_summary true msgs llm counts).result =
          (generate_llm_summary true msgs (llm 1)).1 ∨
       (generate_daily_summary true msgs llm counts).result =
          truncate_message (generate_llm_summary true msgs (llm 1)).1) ∧
      (∀ cr : Except PyStr PyStr,
        (generate_llm_summary true msgs cr).1 = no_messages_summary ∨
        (∃ s, cr = Except.ok s ∧ (generate_llm_summary true msgs cr).1 =
          pyJoin ['\n'] [summary_header_line1, summary_header_line2, s]) ∨
        (∃ e, cr = Except.error e ∧ (generate_llm_summary true msgs cr).1 =
          "Failed to generate summary: ".data ++ e)) := by
  intro msgs llm counts
  refine ⟨?_, ?_, ?_⟩
  · rw [generate_daily_summary_client]
    by_cases v0 : validate_message_length (generate_llm_summary true msgs (llm 0)).1
    · simp [v0]
    · by_cases v1 : validate_message_length (generate_llm_summary true msgs (llm 1)).1
      · simp [v0, v1]
      · simp [v0, v1]
  · rw [generate_daily_summary_client]
    by_cases v0 : validate_message_length (generate_llm_summary true msgs (llm 0)).1
    · simp [v0]
    · by_cases v1 : validate_message_length (generate_llm_summary true msgs (llm 1)).1
      · simp [v0, v1]
      · simp [v0, v1]
  · intro cr
    by_cases hm : msgs = []
    · left; simp [generate_llm_summary, hm]
    · cases cr with
      | ok s => exact Or.inr (Or.inl ⟨s, rfl, by simp [generate_llm_summary, hm]⟩)
      | error e => exact Or.inr (Or.inr ⟨e, rfl, by simp [generate_llm_summary, hm]⟩)

/-- C10 (counterexample): with the client initialized and an empty 24-hour
window, `generate_daily_summary` returns the fixed notice
"No messages to summarize from the last 24 hours." — a reachable return
value that is none of the three forms the claim enumerates for the client
path (the formatted text-generation summary, its truncation, or the
error string produced inside `generate_llm_summary`). -/
theorem c10_claim_counterexample :
    (generate_daily_summary true [] (fun _ => Except.ok ['x']) []).result
      = no_messages_summary ∧
    (generate_daily_summary true [] (fun _ => Except.ok ['x']) []).result ≠
      pyJoin ['\n'] [summary_header_line1, summary_header_line2, ['x']] ∧
    (generate_daily_summary true [] (fun _ => Except.ok ['x']) []).result ≠
      truncate_message
        (pyJoin ['\n'] [summary_header_line1, summary_header_line2, ['x']]) ∧
    (∀ e : PyStr,
      (generate_daily_summary true [] (fun _ => Except.ok ['x']) []).result ≠
        "Failed to generate summary: ".data ++ e) := by
  refine ⟨by decide, by decide, by decide, ?_⟩
  intro e h
  rw [show (generate_daily_summary true [] (fun _ => Except.ok ['x']) []).result
      = no_messages_summary from by decide] at h
  simp [no_messages_summary] at h

/-- C10 (amended): whenever the text-generation client initialized
successfully, `generate_daily_summary` never returns the count-based
per-author fallback summary (the fallback branch flag is never set on the
client path): every return value on that path is the fixed no-messages
notice, the formatted text-generation summary of one of the two attempts,
the short error string produced inside `generate_llm_summary` for one of
the two attempts, or the truncation of the second attempt's formatted
summary or error string; the count-based fallback branch is reachable only
when the client is absent. -/
theorem c10_output_forms_amended :
    ∀ (msgs : List Row) (llm : Nat → Except PyStr PyStr)
      (counts : List (PyStr × Nat)),
      (generate_daily_summary true msgs llm counts).usedFallback = false ∧
      ((generate_daily_summary true msgs llm counts).result =
          no_messages_summary ∨
       (∃ i s, i ≤ 1 ∧ llm i = Except.ok s ∧
         (generate_daily_summary true msgs llm counts).result =
           pyJoin ['\n'] [summary_header_line1, summary_header_line2, s]) ∨
       (∃ i e, i ≤ 1 ∧ llm i = Except.error e ∧
         (generate_daily_summary true msgs llm counts).result =
           "Failed to generate summary: ".data ++ e) ∨
       (∃ s, llm 1 = Except.ok s ∧
         (generate_daily_summary true msgs llm counts).result =
           truncate_message
             (pyJoin ['\n'] [summary_header_line1, summary_header_line2, s])) ∨
       (∃ e, llm 1 = Except.error e ∧
         (generate_daily_summary true msgs llm counts).result =
           truncate_message ("Failed to generate summary: ".data ++ e))) := by
  intro msgs llm counts
  refine ⟨(c10_no_fallback_with_client msgs llm counts).1, ?_⟩
  rw [generate_daily_summary_client]
  by_cases v0 : validate_message_length (generate_llm_summary true msgs (llm 0)).1
  · simp only [v0, if_true]
    by_cases hm : msgs = []
    · left
      simp [generate_llm_summary, hm]
    · cases h0 : llm 0 with
      | ok s =>
        exact Or.inr (Or.inl ⟨0, s, by norm_num, h0,
          by simp [generate_llm_summary, hm, h0]⟩)
      | error e =>
        exact Or.inr (Or.inr (Or.inl ⟨0, e, by norm_num, h0,
          by simp [generate_llm_summary, hm, h0]⟩))
  · by_cases v1 : validate_message_length (generate_llm_summary true msgs (llm 1)).1
    · simp only [v0, v1, Bool.false_eq_true, if_false, if_true]
      by_cases hm : msgs = []
      · left
        simp [generate_llm_summary, hm]
      · cases h1 : llm 1 with
        | ok s =>
          exact Or.inr (Or.inl ⟨1, s, by norm_num, h1,
            by simp [generate_llm_summary, hm, h1]⟩)
        | error e =>
          exact Or.inr (Or.inr (Or.inl ⟨1, e, by norm_num, h1,
            by simp [generate_llm_summary, hm, h1]⟩))
    · simp only [v0, v1, Bool.false_eq_true, if_false]
      have hm : msgs ≠ [] := by
        intro hm
        apply v1
        rw [hm]
        simp [generate_llm_summary, no_messages_summary]
        decide
      cases h1 : llm 1 with
      | ok s =>
        exact Or.inr (Or.inr (Or.inr (Or.inl ⟨s, rfl,
          by simp [generate_llm_summary, hm, h1]⟩)))
      | error e =>
        exact Or.inr (Or.inr (Or.inr (Or.inr ⟨e, rfl,
          by simp [generate_llm_summary, hm, h1]⟩)))

/-- C3 (amended): `_truncate_message` cuts an over-length message at the
maximum *strictly positive* index among the last period, last newline and
last space found in the first 2000 characters (a break character at index 0
counts as no break point), appending the ellipsis marker, and hard-cuts at
`2000 - 3` characters plus the marker when no such break point exists; in
particular, on a 2500-character input whose only break character at or
before index 2000 is a period at position 1800, it cuts at position 1800,
appends the ellipsis marker, and the result does not exceed 2000
characters. -/
theorem c3_truncation_amended :
    (∀ message : PyStr, truncate_message message = specTruncateAmended message) ∧
    scenarioC3.length = 2500 ∧
    truncate_message scenarioC3 = List.replicate 1800 'b' ++ ellipsis ∧
    (truncate_message scenarioC3).length ≤ 2000 := by
  refine ⟨truncate_message_eq_specAmended, scenarioC3_length, truncate_scenarioC3, ?_⟩
  rw [truncate_scenarioC3]
  simp [ellipsis]

/-! ### Message Store theorems -/

theorem store_message_dup (m : Message) (db : List Row)
    (hmem : ∃ r ∈ db, r.message_id = m.id) :
    store_message false m db = (false, db) := by
  by_cases hc : pyStrip (combined_content m) = []
  · simp [store_message, hc]
  · simp [store_message, hc, hmem]

theorem store_message_new (m : Message) (db : List Row)
    (hc : pyStrip (combined_content m) ≠ [])
    (hfresh : ∀ r ∈ db, r.message_id ≠ m.id) :
    store_message false m db =
      (true, db ++ [⟨m.id, m.author_id, m.author_name, combined_content m,
        m.created_at, m.channel_id⟩]) := by
  have hno : ¬ ∃ r ∈ db, r.message_id = m.id := by
    rintro ⟨r, hr, he⟩
    exact hfresh r hr he
  simp [store_message, hc, hno]

/-- C4: ingesting a message with non-empty combined content into a store
that does not yet hold its identifier stores exactly one row and returns
true; a second call with the same identifier returns false and leaves the
store unchanged (idempotent insert, not an error). -/
theorem c4_ingest_idempotent (m1 m2 : Message) (db : List Row)
    (hid : m2.id = m1.id)
    (hcontent1 : pyStrip (combined_content m1) ≠ [])
    (hfresh : ∀ r ∈ db, r.message_id ≠ m1.id) :
    (store_message false m1 db).1 = true ∧
    (store_message false m2 (store_message false m1 db).2).1 = false ∧
    (store_message false m2 (store_message false m1 db).2).2 =
      (store_message false m1 db).2 ∧
    ((store_message false m1 db).2.filter
      (fun r => decide (r.message_id = m1.id))).length = 1 := by
  have hs1 := store_message_new m1 db hcontent1 hfresh
  have hdup : ∃ r ∈ (store_message false m1 db).2, r.message_id = m2.id := by
    rw [hs1]
    refine ⟨⟨m1.id, m1.author_id, m1.author_name, combined_content m1,
      m1.created_at, m1.channel_id⟩, ?_, by simp [hid]⟩
    simp
  have hs2 := store_message_dup m2 (store_message false m1 db).2 hdup
  have hdbf : db.filter (fun r => decide (r.message_id = m1.id)) = [] := by
    rw [List.filter_eq_nil_iff]
    intro r hr
    simpa using hfresh r hr
  refine ⟨by rw [hs1], by rw [hs2], by rw [hs2], ?_⟩
  rw [hs1]
  simp [List.filter_append, hdbf]

/-- C4 (witness): the idempotent insert at a concrete message and empty
store. -/
theorem c4_ingest_idempotent_witness :
    pyStrip (combined_content msgA) ≠ [] ∧
    (store_message false msgA []).1 = true ∧
    (store_message false msgA (store_message false msgA []).2).1 = false ∧
    (store_message false msgA (store_message false msgA []).2).2 =
      (store_message false msgA []).2 :=
  ⟨by decide,
   (c4_ingest_idempotent msgA msgA [] rfl (by decide) (by simp)).1,
   (c4_ingest_idempotent msgA msgA [] rfl (by decide) (by simp)).2.1,
   (c4_ingest_idempotent msgA msgA [] rfl (by decide) (by simp)).2.2.1⟩

/-- C8: a message whose combined content is empty or whitespace-only is
not stored — `store_message` returns false and leaves the store unchanged;
in particular a message with empty text, no embeds, no components and no
attachments has empty combined content. -/
theorem c8_empty_content_rejected :
    (∀ (fault : Bool) (m : Message) (db : List Row),
      pyStrip (combined_content m) = [] → store_message fault m db = (false, db)) ∧
    combined_content emptyMsg = [] := by
  constructor
  · intro fault m db h
    cases fault with
    | true => simp [store_message]
    | false => simp [store_message, h]
  · decide

/-- C8 (witness): the empty message is rejected by a concrete store. -/
theorem c8_empty_content_rejected_witness :
    pyStrip (combined_content emptyMsg) = [] ∧
    store_message false emptyMsg [rowA] = (false, [rowA]) :=
  ⟨by decide, c8_empty_content_rejected.1 false emptyMsg [rowA] (by decide)⟩

/-- C9: every Message Store operation is total (no exception reaches the
caller): under a storage fault, the read operations return the empty
list / `none` / the empty mapping and the write operations return `false`
leaving the state unchanged; and the rows returned by `get_messages_since`
are always ordered ascending by timestamp. -/
theorem c9_storage_fault_semantics :
    (∀ (ts : Nat) (db : List Row), get_messages_since true ts db = []) ∧
    (∀ st : Option PyStr, get_last_processed_id true st = none) ∧
    (∀ (s : Option Nat) (db : List Row), get_message_count_by_user true s db = []) ∧
    (∀ (m : Message) (db : List Row), store_message true m db = (false, db)) ∧
    (∀ (mid : PyStr) (st : Option PyStr),
      set_last_processed_id true mid st = (false, st)) ∧
    (∀ (fault : Bool) (ts : Nat) (db : List Row),
      (get_messages_since fault ts db).Pairwise
        (fun a b => a.timestamp ≤ b.timestamp)) := by
  refine ⟨fun ts db => rfl, fun st => rfl, fun s db => rfl, fun m db => rfl,
    fun mid st => rfl, ?_⟩
  intro fault ts db
  cases fault with
  | true => simp [get_messages_since]
  | false =>
    unfold get_messages_since
    simp only [Bool.false_eq_true, if_false]
    have hs : ((db.filter (fun r => decide (ts ≤ r.timestamp))).mergeSort
        (fun a b => decide (a.timestamp ≤ b.timestamp))).Pairwise
        (fun a b => decide (a.timestamp ≤ b.timestamp) = true) :=
      List.sorted_mergeSort
        (by intro a b c hab hbc
            simp only [decide_eq_true_eq] at hab hbc ⊢
            omega)
        (by intro a b
            simp only [Bool.or_eq_true, decide_eq_true_eq]
            omega)
        (db.filter (fun r => decide (ts ≤ r.timestamp)))
    exact hs.imp (fun h => of_decide_eq_true h)

/-! ### Dispatcher theorems -/

theorem dictLookup_dictInsert (k k' : Int) (v : Bool) (l : List (Int × Bool)) :
    dictLookup k' (dictInsert k v l) =
      if k' = k then some v else dictLookup k' l := by
  induction l with
  | nil =>
    simp only [dictInsert, dictLookup]
    by_cases h : k = k'
    · simp [h]
    · simp [h, Ne.symm h]
  | cons p rest ih =>
    obtain ⟨pk, pv⟩ := p
    simp only [dictInsert]
    by_cases hpk : pk = k
    · subst hpk
      simp only [if_pos rfl, dictLookup]
      by_cases h : pk = k'
      · simp [h]
      · simp [h, Ne.symm h]
    · simp only [if_neg hpk, dictLookup]
      by_cases h2 : pk = k'
      · subst h2
        simp [dictLookup, hpk]
      · simp [dictLookup, h2, ih]

theorem dictLookup_foldl (f : Int → Bool) (l : List Int)
    (acc : List (Int × Bool)) (d : Int) :
    dictLookup d (l.foldl (fun results cid => dictInsert cid (f cid) results) acc) =
      if d ∈ l then some (f d) else dictLookup d acc := by
  induction l generalizing acc with
  | nil => simp
  | cons c cs ih =>
    simp only [List.foldl_cons]
    rw [ih]
    by_cases hd : d ∈ cs
    · simp [hd]
    · by_cases hdc : d = c
      · subst hdc
        simp [hd, dictLookup_dictInsert]
      · simp [hd, hdc, dictLookup_dictInsert]

theorem keys_dictInsert (k : Int) (v : Bool) (l : List (Int × Bool)) :
    (dictInsert k v l).map Prod.fst =
      if k ∈ l.map Prod.fst then l.map Prod.fst else l.map Prod.fst ++ [k] := by
  induction l with
  | nil => simp [dictInsert]
  | cons p rest ih =>
    obtain ⟨pk, pv⟩ := p
    simp only [dictInsert]
    by_cases hpk : pk = k
    · subst hpk
      simp
    · have hne : ¬ (k = pk) := fun hh => hpk hh.symm
      simp only [if_neg hpk, List.map_cons, ih, List.mem_cons]
      by_cases hk : k ∈ rest.map Prod.fst
      · simp [hk, hne]
      · simp [hk, hne]

theorem dictLookup_isSome_iff (d : Int) (l : List (Int × Bool)) :
    (dictLookup d l).isSome = true ↔ d ∈ l.map Prod.fst := by
  induction l with
  | nil => simp [dictLookup]
  | cons p rest ih =>
    obtain ⟨pk, pv⟩ := p
    simp only [dictLookup, List.map_cons, List.mem_cons]
    by_cases h : pk = d
    · simp [h]
    · have hne : ¬ (d = pk) := fun hh => h hh.symm
      simp [h, hne, ih]

theorem foldl_results_keys_nodup (f : Int → Bool) (l : List Int) :
    ∀ acc : List (Int × Bool), (acc.map Prod.fst).Nodup →
      ((l.foldl (fun results cid => dictInsert cid (f cid) results) acc).map
        Prod.fst).Nodup := by
  induction l with
  | nil => intro acc hacc; simpa using hacc
  | cons c cs ih =>
    intro acc hacc
    simp only [List.foldl_cons]
    apply ih
    rw [keys_dictInsert]
    by_cases hc : c ∈ acc.map Prod.fst
    · simpa [hc] using hacc
    · simp only [hc, if_false]
      rw [List.nodup_append]
      exact ⟨hacc, List.nodup_singleton c, by simpa using hc⟩

/-- C7: `send_summary_to_subscriber_channels` generates the summary once
and delivers that same content to each destination: the returned mapping
has exactly one boolean entry per configured destination (its keys are
exactly the destinations, without duplicates), the entry of destination `d`
is the outcome of delivering the single generated content to `d`, and that
entry depends only on how `d` itself resolves — a failure at any other
destination cannot change it and no content is re-generated. -/
theorem c7_fanout_partial_delivery (resolve : Int → Option Channel)
    (channels : List Int) (hasClient : Bool) (msgs : List Row)
    (llm : Nat → Except PyStr PyStr) (counts : List (PyStr × Nat)) (d : Int) :
    (d ∈ channels →
      dictLookup d (send_summary_to_subscriber_channels resolve channels
          hasClient msgs llm counts) =
        some (send_to_single_channel resolve d
          (generate_daily_summary hasClient msgs llm counts).result)) ∧
    (d ∉ channels →
      dictLookup d (send_summary_to_subscriber_channels resolve channels
          hasClient msgs llm counts) = none) ∧
    ((send_summary_to_subscriber_channels resolve channels hasClient msgs llm
        counts).map Prod.fst).Nodup ∧
    (d ∈ (send_summary_to_subscriber_channels resolve channels hasClient msgs
        llm counts).map Prod.fst ↔ d ∈ channels) ∧
    (∀ resolve₂ : Int → Option Channel, resolve₂ d = resolve d →
      dictLookup d (send_summary_to_subscriber_channels resolve₂ channels
          hasClient msgs llm counts) =
        dictLookup d (send_summary_to_subscriber_channels resolve channels
          hasClient msgs llm counts)) := by
  unfold send_summary_to_subscriber_channels
  refine ⟨?_, ?_, ?_, ?_, ?_⟩
  · intro hmem
    rw [dictLookup_foldl]
    simp [hmem]
  · intro hmem
    rw [dictLookup_foldl]
    simp [hmem, dictLookup]
  · exact foldl_results_keys_nodup _ channels [] (by simp)
  · constructor
    · intro hmem
      have := (dictLookup_isSome_iff d _).mpr hmem
      rw [dictLookup_foldl] at this
      by_cases hd : d ∈ channels
      · exact hd
      · simp [hd, dictLookup] at this
    · intro hmem
      apply (dictLookup_isSome_iff d _).mp
      rw [dictLookup_foldl]
      simp [hmem]
  · intro resolve₂ hres
    rw [dictLookup_foldl, dictLookup_foldl]
    by_cases hd : d ∈ channels
    · simp only [hd, if_true]
      unfold send_to_single_channel
      rw [hres]
    · simp [hd]

/-- C7 (witness): with destinations `[1, 2, 3]` where destination 2 fails
to resolve, each destination's entry is the delivery outcome of the single
generated content. -/
theorem c7_fanout_partial_delivery_witness :
    (1 : Int) ∈ [(1 : Int), 2, 3] ∧
    dictLookup 1 (send_summary_to_subscriber_channels resolveW [1, 2, 3]
        false [] (fun _ => Except.error []) []) =
      some (send_to_single_channel resolveW 1
        (generate_daily_summary false [] (fun _ => Except.error []) []).result) ∧
    (2 : Int) ∈ [(1 : Int), 2, 3] ∧
    dictLookup 2 (send_summary_to_subscriber_channels resolveW [1, 2, 3]
        false [] (fun _ => Except.error []) []) =
      some (send_to_single_channel resolveW 2
        (generate_daily_summary false [] (fun _ => Except.error []) []).result) :=
  ⟨by decide,
   (c7_fanout_partial_delivery resolveW [1, 2, 3] false []
     (fun _ => Except.error []) [] 1).1 (by decide),
   by decide,
   (c7_fanout_partial_delivery resolveW [1, 2, 3] false []
     (fun _ => Except.error []) [] 2).1 (by decide)⟩

/-! ### Scheduler theorems -/

/-- C5 (counterexample): when the current instant is exactly the configured
time of day (09:00:00.000000 on day 5), the combined instant is not
strictly in the future, yet `get_summary_time` returns it unchanged (same
day) instead of advancing by one calendar day as the claim states. -/
theorem c5_claim_counterexample :
    get_summary_time 9 0 ⟨5, 32400000000⟩ = ⟨5, 32400000000⟩ ∧
    get_summary_time 9 0 ⟨5, 32400000000⟩ ≠ ⟨6, 32400000000⟩ := by
  decide

/-- C5 (amended): `get_summary_time` combines the configured time of day
with the current date and advances by one calendar day exactly when that
instant is strictly in the past (`summary_time < now`); when the instant
equals or exceeds the current time of day it is returned for the same day
(in particular at 09:00:01 with configured time 09:00 the result is 09:00
the next day, and at 08:59:59 it is 09:00 the same day). -/
theorem c5_schedule_next_fire (hour minute d usec : Nat) :
    (((hour * 60 + minute) * 60) * 1000000 < usec →
      get_summary_time hour minute ⟨d, usec⟩ =
        ⟨d + 1, ((hour * 60 + minute) * 60) * 1000000⟩) ∧
    (usec ≤ ((hour * 60 + minute) * 60) * 1000000 →
      get_summary_time hour minute ⟨d, usec⟩ =
        ⟨d, ((hour * 60 + minute) * 60) * 1000000⟩) := by
  have hcond : tzLtb ⟨d, ((hour * 60 + minute) * 60) * 1000000⟩ ⟨d, usec⟩ =
      decide (((hour * 60 + minute) * 60) * 1000000 < usec) := by
    simp [tzLtb]
  constructor
  · intro h
    unfold get_summary_time
    rw [hcond]
    simp [h]
  · intro h
    unfold get_summary_time
    rw [hcond]
    simp [Nat.not_lt.mpr h]

/-- C5 (witness): the two scheduling scenarios of the claim at concrete
instants (one second after and one second before 09:00). -/
theorem c5_schedule_next_fire_witness :
    (9 * 60 + 0) * 60 * 1000000 < 32401000000 ∧
    get_summary_time 9 0 ⟨5, 32401000000⟩ = ⟨6, 32400000000⟩ ∧
    32399000000 ≤ (9 * 60 + 0) * 60 * 1000000 ∧
    get_summary_time 9 0 ⟨5, 32399000000⟩ = ⟨5, 32400000000⟩ :=
  ⟨by norm_num,
   (c5_schedule_next_fire 9 0 5 32401000000).1 (by norm_num),
   by norm_num,
   (c5_schedule_next_fire 9 0 5 32399000000).2 (by norm_num)⟩

end SummarizerBot
